import Mathlib

/-!
Shallow embedding of `packages/bootstrap/extra/dcos_internal_utils/cli.py`
(the DC/OS bootstrap dispatcher) and proofs about its components:
the atomic file writer `_write_file_bytes`, the private-directory
provisioner `_create_private_directory`, the `check_root` privilege gate,
the `bootstrappers` registry and the service loop of `main`, the
zookeeper-address resolvers, and the `dcos_adminrouter` key publisher.

Filesystems are modelled as association lists from path strings to
entries; environment lookups as functions `String → Option String`;
process-terminating events (`sys.exit(1)` and uncaught Python exceptions,
both of which end the interpreter with status 1) as explicit outcome
values; `random.choice` as indexing by an arbitrary natural number
modulo the list length.
-/

set_option autoImplicit false

/-- Association-list lookup: the value stored at key `p`, if any. -/
def lookupA {α : Type} : List (String × α) → String → Option α
  | [], _ => none
  | (k, v) :: rest, p => if k = p then some v else lookupA rest p

/-- Association-list update: replace the binding of `p` in place, or append it. -/
def setA {α : Type} : List (String × α) → String → α → List (String × α)
  | [], p, v => [(p, v)]
  | (k, w) :: rest, p, v =>
    if k = p then (p, v) :: rest else (k, w) :: setA rest p v

/-- Association-list removal: drop every binding of key `p`. -/
def removeA {α : Type} : List (String × α) → String → List (String × α)
  | [], _ => []
  | (k, w) :: rest, p =>
    if k = p then removeA rest p else (k, w) :: removeA rest p

theorem lookupA_setA_self {α : Type} (fs : List (String × α)) (p : String) (v : α) :
    lookupA (setA fs p v) p = some v := by
  induction fs with
  | nil => simp [setA, lookupA]
  | cons hd tl ih =>
    obtain ⟨k, w⟩ := hd
    by_cases hk : k = p
    · simp [setA, hk, lookupA]
    · simp [setA, hk, lookupA, ih]

theorem lookupA_setA_ne {α : Type} (fs : List (String × α)) (p q : String) (v : α)
    (h : p ≠ q) : lookupA (setA fs p v) q = lookupA fs q := by
  induction fs with
  | nil => simp [setA, lookupA, h]
  | cons hd tl ih =>
    obtain ⟨k, w⟩ := hd
    by_cases hk : k = p
    · subst hk
      simp [setA, lookupA, h]
    · simp [setA, hk, lookupA, ih]

theorem removeA_setA {α : Type} (fs : List (String × α)) (p : String) (v : α) :
    removeA (setA fs p v) p = removeA fs p := by
  induction fs with
  | nil => simp [setA, removeA]
  | cons hd tl ih =>
    obtain ⟨k, w⟩ := hd
    by_cases hk : k = p
    · simp [setA, hk, removeA]
    · simp [setA, hk, removeA, ih]

theorem removeA_of_lookupA_none {α : Type} (fs : List (String × α)) (p : String)
    (h : lookupA fs p = none) : removeA fs p = fs := by
  induction fs with
  | nil => simp [removeA]
  | cons hd tl ih =>
    obtain ⟨k, w⟩ := hd
    by_cases hk : k = p
    · simp [lookupA, hk] at h
    · simp [lookupA, hk] at h
      simp [removeA, hk, ih h]

theorem setA_of_lookupA_eq {α : Type} (fs : List (String × α)) (p : String) (v : α)
    (h : lookupA fs p = some v) : setA fs p v = fs := by
  induction fs with
  | nil => simp [lookupA] at h
  | cons hd tl ih =>
    obtain ⟨k, w⟩ := hd
    by_cases hk : k = p
    · subst hk
      simp [lookupA] at h
      simp [setA, h]
    · simp [lookupA, hk] at h
      simp [setA, hk, ih h]

/-- A regular file: its byte content and its (full, 12-bit) mode. -/
structure FileEnt where
  data : List Nat
  mode : Nat
deriving DecidableEq, Repr

/-- The filesystem as seen through a directory: path → file. -/
abbrev FileSys := List (String × FileEnt)

/-- The fallible steps of `_write_file_bytes` named by claim C2:
`os.write`, `os.close`, `os.chmod`, `os.replace`. -/
inductive WStep
  | write
  | close
  | chmod
  | replace
deriving DecidableEq, Repr

/-- Python `stat.S_IMODE(m)`: the chmod-settable bits, `m & 0o7777`. -/
def S_IMODE (m : Nat) : Nat := m % 4096

/-- Shallow embedding of `_write_file_bytes(path, data, mode)`.

`tmp` is the fresh name chosen by `tempfile.mkstemp` (created with mode
`0o600 = 384` and empty content); `fault` says which step, if any, raises.
Returns the chronological list of filesystem states after each primitive
operation (the last element is the final state) together with the outcome:
`Except.error st` models the original exception of step `st` being
re-raised after `os.remove(tmpfile_path)` has deleted the temporary file,
and `Except.ok` carries the final filesystem. `os.replace` is atomic: one
state transition removes `tmp` and installs its file at `path`. -/
def write_file_bytes (fs : FileSys) (path tmp : String) (data : List Nat)
    (mode : Nat) (fault : Option WStep) : List FileSys × Except WStep FileSys :=
  let s1 := setA fs tmp ⟨[], 384⟩
  if fault = some WStep.write then
    ([s1, removeA s1 tmp], Except.error WStep.write)
  else
    let s2 := setA s1 tmp ⟨data, 384⟩
    if fault = some WStep.close then
      ([s1, s2, removeA s2 tmp], Except.error WStep.close)
    else if fault = some WStep.chmod then
      ([s1, s2, removeA s2 tmp], Except.error WStep.chmod)
    else
      let s3 := setA s2 tmp ⟨data, S_IMODE mode⟩
      if fault = some WStep.replace then
        ([s1, s2, s3, removeA s3 tmp], Except.error WStep.replace)
      else
        let s4 := setA (removeA s3 tmp) path ⟨data, S_IMODE mode⟩
        ([s1, s2, s3, s4], Except.ok s4)

theorem cleanup_two {α : Type} (fs : List (String × α)) (tmp : String) (a b : α)
    (h : lookupA fs tmp = none) :
    removeA (setA (setA fs tmp a) tmp b) tmp = fs := by
  rw [removeA_setA, removeA_setA, removeA_of_lookupA_none fs tmp h]

theorem cleanup_three {α : Type} (fs : List (String × α)) (tmp : String) (a b c : α)
    (h : lookupA fs tmp = none) :
    removeA (setA (setA (setA fs tmp a) tmp b) tmp c) tmp = fs := by
  rw [removeA_setA, removeA_setA, removeA_setA, removeA_of_lookupA_none fs tmp h]

/-- C1: for a successful call of the atomic writer (no step faults), the
destination file afterwards holds exactly `data`, its stored mode is
`S_IMODE mode` so its permission bits (`mode % 512 = mode & 0o777`) are
exactly those of the requested mode, and no intermediate state of the
write (every filesystem state before the final one) changes what is
observable at the destination path. -/
theorem write_file_bytes_success (fs : FileSys) (path tmp : String)
    (data : List Nat) (mode : Nat) (hne : tmp ≠ path) :
    ∃ final,
      (write_file_bytes fs path tmp data mode none).2 = Except.ok final ∧
      lookupA final path = some ⟨data, S_IMODE mode⟩ ∧
      (S_IMODE mode) % 512 = mode % 512 ∧
      ∀ s ∈ (write_file_bytes fs path tmp data mode none).1.dropLast,
        lookupA s path = lookupA fs path := by
  refine ⟨setA (removeA (setA (setA (setA fs tmp ⟨[], 384⟩) tmp ⟨data, 384⟩)
      tmp ⟨data, S_IMODE mode⟩) tmp) path ⟨data, S_IMODE mode⟩, ?_, ?_, ?_, ?_⟩
  · simp [write_file_bytes]
  · exact lookupA_setA_self _ _ _
  · exact Nat.mod_mod_of_dvd mode (by norm_num)
  · intro s hs
    simp [write_file_bytes, List.dropLast] at hs
    rcases hs with h | h | h <;> subst h <;>
      simp [lookupA_setA_ne _ _ _ _ hne]

/-- Witness for C1 at a concrete input. -/
theorem write_file_bytes_success_witness :
    ∃ final,
      (write_file_bytes [] "/run/key" "/run/keyAB12" [7, 8] 420 none).2 =
        Except.ok final ∧
      lookupA final "/run/key" = some ⟨[7, 8], S_IMODE 420⟩ := by
  obtain ⟨final, h1, h2, _, _⟩ :=
    write_file_bytes_success [] "/run/key" "/run/keyAB12" [7, 8] 420 (by decide)
  exact ⟨final, h1, h2⟩

/-- C2: if any step (write, close, chmod, replace) raises, the writer
deletes the temporary file, re-raises the original error unchanged
(the outcome is `Except.error st` for the faulted step `st`), the final
filesystem is exactly the initial one, and no state of the whole run
changes what is observable at the destination path. -/
theorem write_file_bytes_failure (fs : FileSys) (path tmp : String)
    (data : List Nat) (mode : Nat) (st : WStep)
    (hne : tmp ≠ path) (htmp : lookupA fs tmp = none) :
    (write_file_bytes fs path tmp data mode (some st)).2 = Except.error st ∧
    (write_file_bytes fs path tmp data mode (some st)).1.getLast? = some fs ∧
    ∀ s ∈ (write_file_bytes fs path tmp data mode (some st)).1,
      lookupA s path = lookupA fs path := by
  cases st with
  | write =>
    refine ⟨by simp [write_file_bytes], ?_, ?_⟩
    · simp [write_file_bytes, removeA_setA, removeA_of_lookupA_none fs tmp htmp]
    · intro s hs
      simp [write_file_bytes, removeA_setA,
        removeA_of_lookupA_none fs tmp htmp] at hs
      rcases hs with h | h <;> subst h <;>
        simp [lookupA_setA_ne _ _ _ _ hne]
  | close =>
    refine ⟨by simp [write_file_bytes], ?_, ?_⟩
    · simp [write_file_bytes, cleanup_two fs tmp _ _ htmp]
    · intro s hs
      simp [write_file_bytes, cleanup_two fs tmp _ _ htmp] at hs
      rcases hs with h | h | h <;> subst h <;>
        simp [lookupA_setA_ne _ _ _ _ hne]
  | chmod =>
    refine ⟨by simp [write_file_bytes], ?_, ?_⟩
    · simp [write_file_bytes, cleanup_two fs tmp _ _ htmp]
    · intro s hs
      simp [write_file_bytes, cleanup_two fs tmp _ _ htmp] at hs
      rcases hs with h | h | h <;> subst h <;>
        simp [lookupA_setA_ne _ _ _ _ hne]
  | replace =>
    refine ⟨by simp [write_file_bytes], ?_, ?_⟩
    · simp [write_file_bytes, cleanup_three fs tmp _ _ _ htmp]
    · intro s hs
      simp [write_file_bytes, cleanup_three fs tmp _ _ _ htmp] at hs
      rcases hs with h | h | h | h <;> subst h <;>
        simp [lookupA_setA_ne _ _ _ _ hne]

/-- Witness for C2 at a concrete input (fault in the chmod step). -/
theorem write_file_bytes_failure_witness :
    (write_file_bytes [("/run/key", ⟨[1], 420⟩)] "/run/key" "/run/keyAB12"
        [7, 8] 420 (some WStep.chmod)).2 = Except.error WStep.chmod ∧
    (write_file_bytes [("/run/key", ⟨[1], 420⟩)] "/run/key" "/run/keyAB12"
        [7, 8] 420 (some WStep.chmod)).1.getLast? =
      some [("/run/key", ⟨[1], 420⟩)] := by
  obtain ⟨h1, h2, _⟩ :=
    write_file_bytes_failure [("/run/key", ⟨[1], 420⟩)] "/run/key"
      "/run/keyAB12" [7, 8] 420 WStep.chmod (by decide) (by decide)
  exact ⟨h1, h2⟩

/-- A directory entry: its mode bits and its owning user. -/
structure DirEnt where
  mode : Nat
  owner : String
deriving DecidableEq, Repr

/-- The filesystem as a map from directory paths to directory entries. -/
abbrev DirSys := List (String × DirEnt)

/-- `pathlib.Path.mkdir(exist_ok=True)`: create the directory with the
process default creation mode and owner if absent, no-op if present. -/
def path_mkdir_exist_ok (fs : DirSys) (p : String) (createMode : Nat)
    (creator : String) : DirSys :=
  match lookupA fs p with
  | some _ => fs
  | none => setA fs p ⟨createMode, creator⟩

/-- `pathlib.Path.chmod(m)`: set the mode bits, keep the owner; raises if
the path does not exist. -/
def path_chmod (fs : DirSys) (p : String) (m : Nat) : Except String DirSys :=
  match lookupA fs p with
  | some d => Except.ok (setA fs p ⟨m, d.owner⟩)
  | none => Except.error "FileNotFoundError"

/-- `shutil.chown(p, user=u)`: set the owner, keep the mode; raises if the
path does not exist. -/
def shutil_chown (fs : DirSys) (p : String) (u : String) : Except String DirSys :=
  match lookupA fs p with
  | some d => Except.ok (setA fs p ⟨d.mode, u⟩)
  | none => Except.error "FileNotFoundError"

/-- Shallow embedding of `_create_private_directory(path, owner)`:
`path.mkdir(exist_ok=True)`, then `path.chmod(0o700)` (`0o700 = 448`),
then `shutil.chown(str(path), user=owner)`.  `createMode` and `creator`
are the ambient default creation mode (umask-derived) and the invoking
user of the `mkdir` step. -/
def create_private_directory (fs : DirSys) (path owner : String)
    (createMode : Nat) (creator : String) : Except String DirSys :=
  match path_chmod (path_mkdir_exist_ok fs path createMode creator) path 448 with
  | Except.error e => Except.error e
  | Except.ok fs2 => shutil_chown fs2 path owner

theorem create_private_directory_ok (fs : DirSys) (path owner : String)
    (createMode : Nat) (creator : String) :
    ∃ g, create_private_directory fs path owner createMode creator = Except.ok g ∧
      lookupA g path = some ⟨448, owner⟩ := by
  cases hfs : lookupA fs path with
  | none =>
    refine ⟨setA (setA (setA fs path ⟨createMode, creator⟩) path ⟨448, creator⟩)
        path ⟨448, owner⟩, ?_, lookupA_setA_self _ _ _⟩
    simp [create_private_directory, path_mkdir_exist_ok, hfs, path_chmod,
      shutil_chown, lookupA_setA_self]
  | some d =>
    refine ⟨setA (setA fs path ⟨448, d.owner⟩) path ⟨448, owner⟩, ?_,
      lookupA_setA_self _ _ _⟩
    simp [create_private_directory, path_mkdir_exist_ok, hfs, path_chmod,
      shutil_chown, lookupA_setA_self]

theorem create_private_directory_fixed (fs : DirSys) (path owner : String)
    (createMode : Nat) (creator : String)
    (h : lookupA fs path = some ⟨448, owner⟩) :
    create_private_directory fs path owner createMode creator = Except.ok fs := by
  simp [create_private_directory, path_mkdir_exist_ok, h, path_chmod,
    shutil_chown, setA_of_lookupA_eq fs path ⟨448, owner⟩ h]

/-- C5: the private-directory provisioner is idempotent.  One call
succeeds and leaves the directory with mode `0o700 = 448` and the named
owner; a second call with identical arguments raises no error and leaves
the filesystem state exactly as the first call left it. -/
theorem create_private_directory_idempotent (fs : DirSys) (path owner : String)
    (createMode : Nat) (creator : String) :
    ∃ g, create_private_directory fs path owner createMode creator = Except.ok g ∧
      lookupA g path = some ⟨448, owner⟩ ∧
      create_private_directory g path owner createMode creator = Except.ok g := by
  obtain ⟨g, hg, hlook⟩ :=
    create_private_directory_ok fs path owner createMode creator
  exact ⟨g, hg, hlook,
    create_private_directory_fixed g path owner createMode creator hlook⟩

/-- The handlers that appear as values of the `bootstrappers` registry.
`dcos_net_master` and `dcos_net_agent` are reached only through
`dcos_net`.  Every handler `def` in the source carries the `@check_root`
decorator except `noop`. -/
inductive HandlerKind
  | adminrouter
  | bouncer
  | signal
  | telegraf_master
  | telegraf_agent
  | net
  | cockroach_config_change
  | noop
deriving DecidableEq, Repr

/-- Whether the registry value for this handler is wrapped by the
`check_root` decorator in the source (`noop` is not decorated). -/
def check_root_wrapped : HandlerKind → Bool
  | HandlerKind.noop => false
  | _ => true

/-- The `bootstrappers` registry: service name → handler, exactly the 22
entries of the source dict in order. -/
def bootstrappers : List (String × HandlerKind) :=
  [("dcos-adminrouter", HandlerKind.adminrouter),
   ("dcos-bouncer", HandlerKind.bouncer),
   ("dcos-signal", HandlerKind.signal),
   ("dcos-diagnostics-master", HandlerKind.noop),
   ("dcos-diagnostics-agent", HandlerKind.noop),
   ("dcos-checks-master", HandlerKind.noop),
   ("dcos-checks-agent", HandlerKind.noop),
   ("dcos-fluent-bit-master", HandlerKind.noop),
   ("dcos-fluent-bit-agent", HandlerKind.noop),
   ("dcos-marathon", HandlerKind.noop),
   ("dcos-mesos-master", HandlerKind.noop),
   ("dcos-mesos-slave", HandlerKind.noop),
   ("dcos-mesos-slave-public", HandlerKind.noop),
   ("dcos-cosmos", HandlerKind.noop),
   ("dcos-cockroach", HandlerKind.noop),
   ("dcos-cockroach-config-change", HandlerKind.cockroach_config_change),
   ("dcos-metronome", HandlerKind.noop),
   ("dcos-mesos-dns", HandlerKind.noop),
   ("dcos-net", HandlerKind.net),
   ("dcos-telegraf-master", HandlerKind.telegraf_master),
   ("dcos-telegraf-agent", HandlerKind.telegraf_agent),
   ("dcos-ui-update-service", HandlerKind.noop)]

/-- Outcome of invoking one registry handler at a given uid:
either `sys.exit(1)` fired inside the `check_root` wrapper before the
body, or the handler body ran. -/
inductive InvokeResult
  | exited (code : Nat)
  | bodyRan (k : HandlerKind)
deriving DecidableEq, Repr

/-- Invoking a registry handler: the `check_root` wrapper (present only on
decorated handlers) logs and calls `sys.exit(1)` when `os.getuid() != 0`;
otherwise the wrapped body runs. -/
def invoke_handler (k : HandlerKind) (uid : Nat) : InvokeResult :=
  if check_root_wrapped k = true ∧ uid ≠ 0 then InvokeResult.exited 1
  else InvokeResult.bodyRan k

/-- Outcome of the service loop of `main`: either every requested service
was configured and its handler invoked, in order, or the loop hit a name
missing from the registry, logged it and called `sys.exit(1)`, having
processed exactly the earlier services. -/
inductive DispatchOutcome
  | ok (processed : List String)
  | fatalUnknown (processed : List String) (unknown : String) (exitCode : Nat)
deriving DecidableEq, Repr

/-- The `for service in opts.services` loop of `main`: each name is looked
up in `bootstrappers`; a miss logs `Unknown service` and exits with
status 1; a hit applies the service configuration and invokes the handler,
then the loop continues. -/
def main_service_loop : List String → DispatchOutcome
  | [] => DispatchOutcome.ok []
  | s :: rest =>
    match lookupA bootstrappers s with
    | none => DispatchOutcome.fatalUnknown [] s 1
    | some _ =>
      match main_service_loop rest with
      | DispatchOutcome.ok ps => DispatchOutcome.ok (s :: ps)
      | DispatchOutcome.fatalUnknown ps u c =>
          DispatchOutcome.fatalUnknown (s :: ps) u c

/-- C3: if the requested services are `pre ++ unknown :: post` where every
name in `pre` is in the registry and `unknown` is not, the loop processes
exactly the services of `pre`, in the given order, then aborts at
`unknown` with exit status 1; nothing after `unknown` is attempted. -/
theorem main_service_loop_unknown (pre : List String) (u : String)
    (post : List String)
    (hpre : ∀ s ∈ pre, lookupA bootstrappers s ≠ none)
    (hu : lookupA bootstrappers u = none) :
    main_service_loop (pre ++ u :: post) =
      DispatchOutcome.fatalUnknown pre u 1 := by
  induction pre with
  | nil => simp [main_service_loop, hu]
  | cons s tl ih =>
    have hs : lookupA bootstrappers s ≠ none := hpre s (by simp)
    obtain ⟨k, hk⟩ := Option.ne_none_iff_exists.mp hs
    have htl : main_service_loop (tl ++ u :: post) =
        DispatchOutcome.fatalUnknown tl u 1 :=
      ih (fun x hx => hpre x (by simp [hx]))
    simp [main_service_loop, ← hk, htl]

/-- Witness for C3: the spec scenario `["dcos-bouncer", "bogus-service"]`
processes the bouncer, then aborts with status 1 at the unknown name. -/
theorem main_service_loop_unknown_witness :
    main_service_loop ["dcos-bouncer", "bogus-service"] =
      DispatchOutcome.fatalUnknown ["dcos-bouncer"] "bogus-service" 1 :=
  main_service_loop_unknown ["dcos-bouncer"] "bogus-service" []
    (by decide) (by decide)

/-- C4 (counterexample): the registry maps `dcos-diagnostics-master` to the
undecorated `noop` handler, and invoking that handler with a non-root uid
runs its body instead of exiting with status 1 — so it is false that every
registry handler exits before its body when the user is not root. -/
theorem check_root_gate_counterexample :
    lookupA bootstrappers "dcos-diagnostics-master" = some HandlerKind.noop ∧
    invoke_handler HandlerKind.noop 1000 =
      InvokeResult.bodyRan HandlerKind.noop ∧
    invoke_handler HandlerKind.noop 1000 ≠ InvokeResult.exited 1 := by
  refine ⟨by decide, by decide, by decide⟩

/-- C4 (amended): for every registry entry whose handler is not the
undecorated `noop`, invoking the handler with a non-zero uid exits with
status 1 before the handler body runs. -/
theorem check_root_gate_amended (name : String) (k : HandlerKind)
    (hreg : lookupA bootstrappers name = some k)
    (hk : k ≠ HandlerKind.noop) (uid : Nat) (huid : uid ≠ 0) :
    invoke_handler k uid = InvokeResult.exited 1 := by
  cases k <;> simp_all [invoke_handler, check_root_wrapped]

/-- Witness for the amended C4 at a concrete input. -/
theorem check_root_gate_amended_witness :
    invoke_handler HandlerKind.bouncer 1000 = InvokeResult.exited 1 :=
  check_root_gate_amended "dcos-bouncer" HandlerKind.bouncer (by decide)
    (by decide) 1000 (by decide)

/-- The literal returned by `get_zookeeper_address` on master nodes. -/
def zk_loopback : String := "127.0.0.1:2181"

/-- The hard-coded fallback list of `get_zookeeper_address_agent`. -/
def zk_static_fallback : String :=
  "zk-1.zk:2181,zk-2.zk:2181,zk-3.zk:2181,zk-4.zk:2181,zk-5.zk:2181"

/-- Python truthiness of an `os.getenv` result: `None` and the empty
string are falsy. -/
def env_truthy : Option String → Bool
  | none => false
  | some s => s != ""

/-- Shallow embedding of `get_zookeeper_address_agent()`.

`env` is the process environment; `master_list` is the JSON array read
from `/opt/mesosphere/etc/master_list` (consulted only in the
`MASTER_SOURCE == master_list` branch); `random.choice` is modelled by
indexing with an arbitrary `pick` modulo the list length, so every index
is reachable and a uniform `pick` gives the uniform choice of the source.
The failing `assert len(master_list) > 0` is an uncaught
`AssertionError`, modelled as `Except.error`. -/
def get_zookeeper_address_agent (env : String → Option String)
    (master_list : List String) (pick : Nat) : Except String String :=
  if env "MASTER_SOURCE" = some "master_list" then
    if 0 < master_list.length then
      Except.ok (master_list.getD (pick % master_list.length) "" ++ ":2181")
    else
      Except.error "AssertionError"
  else if env_truthy (env "EXHIBITOR_ADDRESS") then
    Except.ok ((env "EXHIBITOR_ADDRESS").getD "" ++ ":2181")
  else
    Except.ok zk_static_fallback

/-- Python `repr` of a string as it appears inside `str` of a list. -/
def pyRepr (s : String) : String := "\x27" ++ s ++ "\x27"

/-- Python `str` of a list of strings, as interpolated by `format`. -/
def pyListStr (l : List String) : String :=
  "[" ++ String.intercalate ", " (l.map pyRepr) ++ "]"

/-- Shallow embedding of `get_zookeeper_address()`.  `roles` is the
listing of `/opt/mesosphere/etc/roles`; the raised `Exception` on an
unknown role is modelled as `Except.error` carrying its message. -/
def get_zookeeper_address (roles : List String) (env : String → Option String)
    (master_list : List String) (pick : Nat) : Except String String :=
  if "master" ∈ roles then Except.ok zk_loopback
  else if "slave" ∈ roles ∨ "slave_public" ∈ roles then
    get_zookeeper_address_agent env master_list pick
  else
    Except.error
      ("Can\x27t get zookeeper address. Unknown role: " ++ pyListStr roles)

/-- C6: for every role set containing `master`, address resolution returns
the loopback literal `127.0.0.1:2181`, whatever the environment, the
master-list file and the random draw are. -/
theorem get_zookeeper_address_master (roles : List String)
    (env : String → Option String) (master_list : List String) (pick : Nat)
    (h : "master" ∈ roles) :
    get_zookeeper_address roles env master_list pick = Except.ok zk_loopback ∧
    zk_loopback = "127.0.0.1:2181" := by
  constructor
  · simp [get_zookeeper_address, h]
  · rfl

/-- Witness for C6 at a concrete input, with environment variables set. -/
theorem get_zookeeper_address_master_witness :
    get_zookeeper_address ["master"]
        (fun _ => some "10.0.0.1") ["10.9.9.9"] 3 = Except.ok zk_loopback ∧
    zk_loopback = "127.0.0.1:2181" :=
  get_zookeeper_address_master ["master"] (fun _ => some "10.0.0.1")
    ["10.9.9.9"] 3 (by decide)

/-- C9: for every role set containing none of `master`, `slave`,
`slave_public`, address resolution fails with the fatal message naming the
unrecognized role set. -/
theorem get_zookeeper_address_unknown_role (roles : List String)
    (env : String → Option String) (master_list : List String) (pick : Nat)
    (h1 : "master" ∉ roles) (h2 : "slave" ∉ roles)
    (h3 : "slave_public" ∉ roles) :
    get_zookeeper_address roles env master_list pick =
      Except.error
        ("Can\x27t get zookeeper address. Unknown role: " ++ pyListStr roles) := by
  simp [get_zookeeper_address, h1, h2, h3]

/-- Witness for C9 at a concrete input. -/
theorem get_zookeeper_address_unknown_role_witness :
    get_zookeeper_address ["weird_role"] (fun _ => none) [] 0 =
      Except.error
        ("Can\x27t get zookeeper address. Unknown role: " ++
          pyListStr ["weird_role"]) :=
  get_zookeeper_address_unknown_role ["weird_role"] (fun _ => none) [] 0
    (by decide) (by decide) (by decide)

/-- C7: in static-list mode (`MASTER_SOURCE=master_list`), the agent
resolver fails fatally (failed `assert`) on an empty master list; on a
one-entry list every random draw returns that entry; and on a list of
length `N` every index `i < N` is the outcome of some draw (`pick = i`),
so no entry has zero probability. -/
theorem get_zookeeper_address_agent_static (env : String → Option String)
    (henv : env "MASTER_SOURCE" = some "master_list") :
    (∀ pick, get_zookeeper_address_agent env [] pick =
      Except.error "AssertionError") ∧
    (∀ x : String, ∀ pick, get_zookeeper_address_agent env [x] pick =
      Except.ok (x ++ ":2181")) ∧
    (∀ master_list : List String, ∀ i, i < master_list.length →
      get_zookeeper_address_agent env master_list i =
        Except.ok (master_list.getD i "" ++ ":2181")) := by
  refine ⟨?_, ?_, ?_⟩
  · intro pick
    simp [get_zookeeper_address_agent, henv]
  · intro x pick
    simp [get_zookeeper_address_agent, henv, Nat.mod_one]
  · intro master_list i hi
    have hpos : 0 < master_list.length := Nat.lt_of_le_of_lt (Nat.zero_le i) hi
    simp [get_zookeeper_address_agent, henv, hpos, Nat.mod_eq_of_lt hi]

/-- An environment in which only `MASTER_SOURCE=master_list` is set. -/
def envMasterList : String → Option String :=
  fun k => if k = "MASTER_SOURCE" then some "master_list" else none

/-- Witness for C7: from the two-entry list, draw 1 returns the second
entry. -/
theorem get_zookeeper_address_agent_static_witness :
    get_zookeeper_address_agent envMasterList ["h1", "h2"] 1 =
      Except.ok ("h2" ++ ":2181") :=
  (get_zookeeper_address_agent_static envMasterList
    (by simp [envMasterList])).2.2 ["h1", "h2"] 1 (by decide)

/-- `env` with one variable removed, as if `os.environ` lacked the key. -/
def env_unset (env : String → Option String) (key : String) :
    String → Option String :=
  fun k => if k = key then none else env k

/-- C10: an `EXHIBITOR_ADDRESS` set to the empty string is falsy, so
(outside static-list mode) the agent resolver behaves exactly as if the
variable were unset and returns the hard-coded five-host list; and every
address the agent resolver ever returns ends with the suffix `:2181`. -/
theorem get_zookeeper_address_agent_empty_exhibitor
    (env : String → Option String) (master_list : List String) (pick : Nat) :
    (env "MASTER_SOURCE" ≠ some "master_list" →
      env "EXHIBITOR_ADDRESS" = some "" →
      get_zookeeper_address_agent env master_list pick =
        Except.ok zk_static_fallback ∧
      get_zookeeper_address_agent env master_list pick =
        get_zookeeper_address_agent (env_unset env "EXHIBITOR_ADDRESS")
          master_list pick) ∧
    (∀ r, get_zookeeper_address_agent env master_list pick = Except.ok r →
      ∃ t, r = t ++ ":2181") := by
  constructor
  · intro h1 h2
    constructor
    · simp [get_zookeeper_address_agent, h1, h2, env_truthy]
    · simp [get_zookeeper_address_agent, env_unset, h1, h2, env_truthy]
  · intro r hr
    by_cases hm : env "MASTER_SOURCE" = some "master_list"
    · by_cases hl : 0 < master_list.length
      · simp [get_zookeeper_address_agent, hm, hl] at hr
        exact ⟨_, hr.symm⟩
      · simp [get_zookeeper_address_agent, hm, hl] at hr
    · by_cases he : env_truthy (env "EXHIBITOR_ADDRESS") = true
      · simp [get_zookeeper_address_agent, hm, he] at hr
        exact ⟨_, hr.symm⟩
      · simp [get_zookeeper_address_agent, hm, he] at hr
        exact ⟨"zk-1.zk:2181,zk-2.zk:2181,zk-3.zk:2181,zk-4.zk:2181,zk-5.zk",
          by rw [← hr]; rfl⟩

/-- An environment in which only `EXHIBITOR_ADDRESS=` (empty) is set. -/
def envEmptyExhibitor : String → Option String :=
  fun k => if k = "EXHIBITOR_ADDRESS" then some "" else none

/-- Witness for C10: with an empty `EXHIBITOR_ADDRESS`, the resolver
returns the hard-coded five-host fallback. -/
theorem get_zookeeper_address_agent_empty_exhibitor_witness :
    get_zookeeper_address_agent envEmptyExhibitor [] 0 =
      Except.ok zk_static_fallback :=
  ((get_zookeeper_address_agent_empty_exhibitor envEmptyExhibitor [] 0).1
    (by simp [envEmptyExhibitor]) (by simp [envEmptyExhibitor])).1

/-- A JSON Web Key as consumed by `dcos_adminrouter`: the base64url
fields `e` (exponent) and `n` (modulus), each possibly missing. -/
structure JWK where
  e : Option String
  n : Option String
deriving DecidableEq, Repr

/-- Process-level outcome of the `dcos_adminrouter` handler body:
the process terminated with an exit status (via `sys.exit` or an uncaught
exception, both status 1), or the PEM file was written at the destination
and chowned to the owner.  `published` is the only outcome in which any
file is written at the destination path. -/
inductive PublishOutcome
  | exited (code : Nat)
  | published (path : String) (owner : String)
deriving DecidableEq, Repr

/-- The fixed destination path of the verification key. -/
def adminrouter_pubkey_path : String :=
  "/run/dcos/dcos-adminrouter/auth-token-verification-key"

/-- Shallow embedding of the key-publication logic of `dcos_adminrouter`:
non-200 status logs and exits 1; `jwks['keys'][0]` on an empty list is an
uncaught `IndexError` (process exit status 1); a first key missing `e` or
`n` is an uncaught `KeyError` (process exit status 1); otherwise the PEM
is written to the fixed path (mode 0644) and chowned to
`dcos_adminrouter`. -/
def dcos_adminrouter_publish (status : Nat) (keys : List JWK) : PublishOutcome :=
  if status ≠ 200 then PublishOutcome.exited 1
  else
    match keys with
    | [] => PublishOutcome.exited 1
    | k :: _ =>
      match k.e, k.n with
      | some _, some _ =>
          PublishOutcome.published adminrouter_pubkey_path "dcos_adminrouter"
      | _, _ => PublishOutcome.exited 1

/-- C8: if the authority endpoint answers 200 with an empty key set, or
with a first key missing a required field, the publisher is fatal: the
process exits with status 1 and no file is written at the destination
(the outcome is never `published`). -/
theorem dcos_adminrouter_publish_fatal (keys : List JWK)
    (h : keys = [] ∨ ∃ k rest, keys = k :: rest ∧ (k.e = none ∨ k.n = none)) :
    dcos_adminrouter_publish 200 keys = PublishOutcome.exited 1 ∧
    ∀ p o, dcos_adminrouter_publish 200 keys ≠ PublishOutcome.published p o := by
  rcases h with rfl | ⟨k, rest, rfl, hf⟩
  · exact ⟨by simp [dcos_adminrouter_publish], by
      intro p o
      simp [dcos_adminrouter_publish]⟩
  · obtain ⟨ke, kn⟩ := k
    rcases hf with rfl | rfl
    · cases kn <;>
        exact ⟨by simp [dcos_adminrouter_publish], by
          intro p o
          simp [dcos_adminrouter_publish]⟩
    · cases ke <;>
        exact ⟨by simp [dcos_adminrouter_publish], by
          intro p o
          simp [dcos_adminrouter_publish]⟩

/-- Witness for C8: the spec scenario of an empty `keys` array. -/
theorem dcos_adminrouter_publish_fatal_witness :
    dcos_adminrouter_publish 200 [] = PublishOutcome.exited 1 :=
  (dcos_adminrouter_publish_fatal [] (Or.inl rfl)).1
